import Mathlib

/-!
Verification of the SHM (simple harmonic motion) simulator.

A shallow embedding of `src/shm-simulation.js`. JavaScript numbers are
modelled as real numbers; the mutable top-level variables of the script
become fields of a `SimState` record, and each top-level function becomes
a state transformer. Canvas drawing is modelled by emitting a list of
drawing commands (`DrawCmd`), mirroring the sequence of 2D-context calls
in the source. The browser's frame scheduler is modelled by three extra
fields: `lastTime` (the `animationLoop.lastTime` expando property),
`scheduledTick` (whether a `requestAnimationFrame` callback is currently
pending) and `nextFrameId` (the id counter of the scheduler; real ids are
positive integers).

Canvas dimensions come from the HTML page, not from the script, so they
are passed as parameters (`W`, `H` for the graph canvas, `simW`, `simH`
for the simulation canvas).
-/

noncomputable section

/-- Constant `simScale` (line 34): pixels per meter on the simulation canvas. -/
def simScale : ℝ := 100

/-- Constant `blockWidth` (line 35). -/
def blockWidth : ℝ := 60

/-- Constant `blockHeight` (line 36). -/
def blockHeight : ℝ := 40

/-- Constant `wallX` (line 37). -/
def wallX : ℝ := 50

/-- Constant `equilibriumX` (line 39): `wallX + 200`. -/
def equilibriumX : ℝ := wallX + 200

/-- Constant `graphScaleY` (line 42): pixels per meter on the graph canvas. -/
def graphScaleY : ℝ := 80

/-- Constant `graphScaleX` (line 43): pixels per second on the graph canvas. -/
def graphScaleX : ℝ := 50

/-- Constant `graphOriginX` (line 44). -/
def graphOriginX : ℝ := 50

/-- JavaScript's `%` operator on the values arising here (`a ≥ 0`, `b > 0`),
where truncated division agrees with floor division: `a - b * ⌊a / b⌋`. -/
def jsMod (a b : ℝ) : ℝ := a - b * ⌊a / b⌋

/-- The mutable top-level state of the script (lines 19–31, 47), plus the
scheduler model fields described in the module docstring. `graphHistory`
stores `(time, position)` pairs. -/
structure SimState where
  mass : ℝ
  springConstant : ℝ
  initialAmplitude : ℝ
  angularFrequency : ℝ
  period : ℝ
  time : ℝ
  position : ℝ
  velocity : ℝ
  graphHistory : List (ℝ × ℝ)
  animationFrameId : Option ℕ
  simulationActive : Bool
  lastTime : Option ℝ
  nextFrameId : ℕ
  scheduledTick : Bool

/-- The state right after the top-level declarations run (lines 19–31),
with `m`, `k`, `A` the values parsed from the three range inputs:
`angularFrequency = sqrt(k/m)`, `period = 2π/angularFrequency`, `time = 0`,
`position = initialAmplitude`, `velocity = 0`, empty history, inactive. -/
def initState (m k A : ℝ) : SimState :=
  let ω := Real.sqrt (k / m)
  { mass := m
    springConstant := k
    initialAmplitude := A
    angularFrequency := ω
    period := 2 * Real.pi / ω
    time := 0
    position := A
    velocity := 0
    graphHistory := []
    animationFrameId := none
    simulationActive := false
    lastTime := none
    nextFrameId := 1
    scheduledTick := false }

/-- Function `updatePhysics(deltaTime)` (lines 75–88): advances `time` by `deltaTime`,
evaluates the closed-form position `A·cos(ωt)` and velocity `-A·ω·sin(ωt)`
at the new absolute time, pushes `(time, position)` onto `graphHistory`,
then removes the oldest sample (a single `shift()`) when
`length * (graphScaleX * 0.03) > W - graphOriginX`, where `W` is
`graphCanvas.width` and `0.03` is the source's assumed per-sample delta. -/
def updatePhysics (W deltaTime : ℝ) (s : SimState) : SimState :=
  let time := s.time + deltaTime
  let position := s.initialAmplitude * Real.cos (s.angularFrequency * time)
  let velocity := -s.initialAmplitude * s.angularFrequency
      * Real.sin (s.angularFrequency * time)
  let gh := s.graphHistory ++ [(time, position)]
  let gh' := if (gh.length : ℝ) * (graphScaleX * 0.03) > W - graphOriginX
    then gh.tail else gh
  { s with time := time, position := position, velocity := velocity,
           graphHistory := gh' }

/-- Function `resetSimulation()` (lines 292–305): cancels the pending frame when
`animationFrameId` is set (truthy), deactivates, zeroes `time` and
`velocity`, puts the block at `initialAmplitude`, clears the history.
The two render calls at the end only draw (see `drawSimulation`,
`drawGraph`); they change no state. -/
def resetSimulation (s : SimState) : SimState :=
  { s with
    scheduledTick := if s.animationFrameId.isSome then false else s.scheduledTick
    simulationActive := false
    time := 0
    position := s.initialAmplitude
    velocity := 0
    graphHistory := [] }

/-- Function `updateParameters()` (lines 58–73) with `m`, `k`, `A` the freshly parsed
input values: stores them, recomputes `angularFrequency = sqrt(k/m)` and
`period = 2π/angularFrequency`, then calls `resetSimulation()`. The
`textContent` label updates are display-only and are not part of the state. -/
def updateParameters (m k A : ℝ) (s : SimState) : SimState :=
  let s1 := { s with mass := m, springConstant := k, initialAmplitude := A }
  let s2 := { s1 with
    angularFrequency := Real.sqrt (s1.springConstant / s1.mass) }
  let s3 := { s2 with period := 2 * Real.pi / s2.angularFrequency }
  resetSimulation s3

/-- Function `startSimulation()` (lines 283–290) with `now` the value of
`performance.now()` at the click: returns unchanged if already active;
otherwise activates, records `now` in `animationLoop.lastTime`, and
requests one animation frame (a fresh positive id, one pending tick). -/
def startSimulation (now : ℝ) (s : SimState) : SimState :=
  if s.simulationActive then s
  else { s with
    simulationActive := true
    lastTime := some now
    animationFrameId := some s.nextFrameId
    nextFrameId := s.nextFrameId + 1
    scheduledTick := true }

/-- Function `animationLoop(currentTime)` (lines 269–279): the pending tick fires
(so it is no longer scheduled); `deltaTime` is `(currentTime - lastTime)/1000`,
where a missing or zero (falsy) `lastTime` falls back to `currentTime`
via `animationLoop.lastTime || currentTime`; `lastTime` is then set to
`currentTime`; if active, runs `updatePhysics` and requests the next frame.
The render calls only draw and change no state. -/
def animationLoop (W currentTime : ℝ) (s : SimState) : SimState :=
  let lastRef : ℝ := match s.lastTime with
    | none => currentTime
    | some l => if l = 0 then currentTime else l
  let deltaTime := (currentTime - lastRef) / 1000
  let s1 := { s with lastTime := some currentTime, scheduledTick := false }
  if s1.simulationActive then
    let s2 := updatePhysics W deltaTime s1
    { s2 with
      animationFrameId := some s2.nextFrameId
      nextFrameId := s2.nextFrameId + 1
      scheduledTick := true }
  else s1

/-- Runs `updatePhysics` once per element of `ds`, in order: the physics
updates performed by a sequence of ticks with those frame deltas. -/
def runTicks (W : ℝ) (ds : List ℝ) (s : SimState) : SimState :=
  ds.foldl (fun s d => updatePhysics W d s) s

/-- The times of the buffered samples, oldest first. -/
def historyTimes (s : SimState) : List ℝ := s.graphHistory.map Prod.fst

/-- The property claimed of the history buffer: every covered time-span,
scaled to pixels by `graphScaleX`, fits in the plot's drawable width
`W - graphOriginX`. -/
def historySpanWithin (W : ℝ) (s : SimState) : Prop :=
  ∀ a ∈ historyTimes s, ∀ b ∈ historyTimes s,
    (b - a) * graphScaleX ≤ W - graphOriginX

/-- One 2D-canvas call, as issued by the two drawing functions. Assignments
to context properties (`fillStyle`, `strokeStyle`, `lineWidth`, `font`,
`textAlign`, `setLineDash`) are recorded as `set…` commands. -/
inductive DrawCmd where
  | clearRect (x y w h : ℝ)
  | fillRect (x y w h : ℝ)
  | strokeRect (x y w h : ℝ)
  | beginPath
  | moveTo (x y : ℝ)
  | lineTo (x y : ℝ)
  | arc (x y r a1 a2 : ℝ)
  | stroke
  | fill
  | fillText (t : String) (x y : ℝ)
  | setFillStyle (c : String)
  | setStrokeStyle (c : String)
  | setLineWidth (w : ℝ)
  | setLineDash (d : List ℝ)
  | setFont (f : String)
  | setTextAlign (a : String)

/-- Function `drawSimulation()` (lines 92–170) on a `simW × simH` canvas. The source
reads `position` and `initialAmplitude` and only calls `simCtx` methods; it
assigns no simulation variable, so the state component of the result is the
input state unchanged, paired with the emitted drawing commands.
`groundY = simH - 50` (line 38); the block's horizontal center is
`equilibriumX + position * simScale` (line 114). -/
def drawSimulation (simW simH : ℝ) (s : SimState) : SimState × List DrawCmd :=
  let groundY := simH - 50
  let currentBlockX := equilibriumX + s.position * simScale
  let springStartX := wallX
  let springEndX := currentBlockX - blockWidth / 2
  let numCoils : ℕ := 15
  let coilLength := (springEndX - springStartX) / (numCoils : ℝ)
  let coilHeight : ℝ := 15
  (s,
    [DrawCmd.clearRect 0 0 simW simH,
     DrawCmd.setFillStyle "#d3d3d3",
     DrawCmd.fillRect 0 groundY simW (simH - groundY),
     DrawCmd.setStrokeStyle "#888",
     DrawCmd.setLineWidth 2,
     DrawCmd.beginPath,
     DrawCmd.moveTo 0 groundY,
     DrawCmd.lineTo simW groundY,
     DrawCmd.stroke,
     DrawCmd.setFillStyle "#666",
     DrawCmd.fillRect (wallX - 10) (groundY - 100) 20 100,
     DrawCmd.fillRect (wallX - 10) (groundY - 100) 20 100,
     DrawCmd.setStrokeStyle "#333",
     DrawCmd.setLineWidth 2,
     DrawCmd.strokeRect (wallX - 10) (groundY - 100) 20 100,
     DrawCmd.setStrokeStyle "#3498db",
     DrawCmd.setLineWidth 3,
     DrawCmd.beginPath,
     DrawCmd.moveTo springStartX (groundY - blockHeight / 2)]
    ++ ((List.range (numCoils + 1)).map fun i =>
         DrawCmd.lineTo (springStartX + (i : ℝ) * coilLength)
           (groundY - blockHeight / 2
             + (if i % 2 = 0 then coilHeight else -coilHeight)))
    ++ [DrawCmd.stroke,
     DrawCmd.setFillStyle "#e74c3c",
     DrawCmd.fillRect (currentBlockX - blockWidth / 2) (groundY - blockHeight)
       blockWidth blockHeight,
     DrawCmd.setStrokeStyle "#c0392b",
     DrawCmd.setLineWidth 2,
     DrawCmd.strokeRect (currentBlockX - blockWidth / 2) (groundY - blockHeight)
       blockWidth blockHeight,
     DrawCmd.setFont "14px Arial",
     DrawCmd.setFillStyle "black",
     DrawCmd.setTextAlign "center",
     DrawCmd.setStrokeStyle "rgba(0, 0, 0, 0.5)",
     DrawCmd.setLineDash [5, 5],
     DrawCmd.beginPath,
     DrawCmd.moveTo equilibriumX (groundY - blockHeight - 20),
     DrawCmd.lineTo equilibriumX (groundY + 20),
     DrawCmd.stroke,
     DrawCmd.fillText "Equilibrium (x=0)" equilibriumX (groundY + 35),
     DrawCmd.setStrokeStyle "rgba(0, 128, 0, 0.7)",
     DrawCmd.beginPath,
     DrawCmd.moveTo (equilibriumX + s.initialAmplitude * simScale)
       (groundY - blockHeight - 20),
     DrawCmd.lineTo (equilibriumX + s.initialAmplitude * simScale)
       (groundY + 20),
     DrawCmd.stroke,
     DrawCmd.beginPath,
     DrawCmd.moveTo (equilibriumX - s.initialAmplitude * simScale)
       (groundY - blockHeight - 20),
     DrawCmd.lineTo (equilibriumX - s.initialAmplitude * simScale)
       (groundY + 20),
     DrawCmd.stroke,
     DrawCmd.setLineDash []])

/-- The scroll offset of `drawGraph` (line 213): when the history is
nonempty, `last.time * graphScaleX - (W - graphOriginX)`, else `0`. -/
def currentGraphXOffset (W : ℝ) (s : SimState) : ℝ :=
  match s.graphHistory.getLast? with
  | some p => p.1 * graphScaleX - (W - graphOriginX)
  | none => 0

/-- Function `drawGraph()` up to the period mark (lines 173–233) on a `W × H` canvas:
clear, axes, labels, the two dashed amplitude lines, the displacement
polyline through the history (first sample `moveTo`, rest `lineTo`), and
the blue marker at the current `(time, position)`.
`graphOriginY = H / 2` (line 45). -/
def drawGraphBase (W H : ℝ) (s : SimState) : List DrawCmd :=
  let graphOriginY := H / 2
  let off := currentGraphXOffset W s
  [DrawCmd.clearRect 0 0 W H,
   DrawCmd.setStrokeStyle "#666",
   DrawCmd.setLineWidth 1,
   DrawCmd.beginPath,
   DrawCmd.moveTo graphOriginX 0,
   DrawCmd.lineTo graphOriginX H,
   DrawCmd.moveTo 0 graphOriginY,
   DrawCmd.lineTo W graphOriginY,
   DrawCmd.stroke,
   DrawCmd.setFont "12px Arial",
   DrawCmd.setFillStyle "black",
   DrawCmd.setTextAlign "center",
   DrawCmd.fillText "Time (s)" (W / 2) (H - 10),
   DrawCmd.setTextAlign "right",
   DrawCmd.fillText "Displacement (m)" (graphOriginX - 5) 10,
   DrawCmd.setStrokeStyle "rgba(0, 128, 0, 0.5)",
   DrawCmd.setLineDash [3, 3],
   DrawCmd.beginPath,
   DrawCmd.moveTo graphOriginX (graphOriginY - s.initialAmplitude * graphScaleY),
   DrawCmd.lineTo W (graphOriginY - s.initialAmplitude * graphScaleY),
   DrawCmd.stroke,
   DrawCmd.beginPath,
   DrawCmd.moveTo graphOriginX (graphOriginY + s.initialAmplitude * graphScaleY),
   DrawCmd.lineTo W (graphOriginY + s.initialAmplitude * graphScaleY),
   DrawCmd.stroke,
   DrawCmd.setLineDash [],
   DrawCmd.setStrokeStyle "#e74c3c",
   DrawCmd.setLineWidth 2,
   DrawCmd.beginPath]
  ++ (match s.graphHistory with
      | [] => []
      | p :: ps =>
        DrawCmd.moveTo (graphOriginX + p.1 * graphScaleX - off)
            (graphOriginY - p.2 * graphScaleY)
          :: ps.map fun q =>
            DrawCmd.lineTo (graphOriginX + q.1 * graphScaleX - off)
              (graphOriginY - q.2 * graphScaleY))
  ++ [DrawCmd.stroke,
   DrawCmd.setFillStyle "blue",
   DrawCmd.beginPath,
   DrawCmd.arc (graphOriginX + s.time * graphScaleX - off)
     (graphOriginY - s.position * graphScaleY) 4 0 (Real.pi * 2),
   DrawCmd.fill]

/-- The purple period mark of `drawGraph` (lines 238–263): a dashed
horizontal double-headed arrow one period wide, just above the upper
amplitude line, whose left end is at
`graphOriginX + (time - time % period) * graphScaleX - offset`. -/
def periodMarkCmds (W H : ℝ) (s : SimState) : List DrawCmd :=
  let graphOriginY := H / 2
  let off := currentGraphXOffset W s
  let periodStartX := graphOriginX + (s.time - jsMod s.time s.period) * graphScaleX - off
  [DrawCmd.setStrokeStyle "purple",
   DrawCmd.setLineDash [2, 4],
   DrawCmd.beginPath,
   DrawCmd.moveTo periodStartX (graphOriginY - s.initialAmplitude * graphScaleY - 10),
   DrawCmd.lineTo (periodStartX + s.period * graphScaleX)
     (graphOriginY - s.initialAmplitude * graphScaleY - 10),
   DrawCmd.stroke,
   DrawCmd.beginPath,
   DrawCmd.moveTo periodStartX (graphOriginY - s.initialAmplitude * graphScaleY - 10),
   DrawCmd.lineTo (periodStartX + 5) (graphOriginY - s.initialAmplitude * graphScaleY - 15),
   DrawCmd.moveTo periodStartX (graphOriginY - s.initialAmplitude * graphScaleY - 10),
   DrawCmd.lineTo (periodStartX + 5) (graphOriginY - s.initialAmplitude * graphScaleY - 5),
   DrawCmd.stroke,
   DrawCmd.beginPath,
   DrawCmd.moveTo (periodStartX + s.period * graphScaleX)
     (graphOriginY - s.initialAmplitude * graphScaleY - 10),
   DrawCmd.lineTo (periodStartX + s.period * graphScaleX - 5)
     (graphOriginY - s.initialAmplitude * graphScaleY - 15),
   DrawCmd.moveTo (periodStartX + s.period * graphScaleX)
     (graphOriginY - s.initialAmplitude * graphScaleY - 10),
   DrawCmd.lineTo (periodStartX + s.period * graphScaleX - 5)
     (graphOriginY - s.initialAmplitude * graphScaleY - 5),
   DrawCmd.stroke,
   DrawCmd.setTextAlign "center",
   DrawCmd.setLineDash []]

/-- Function `drawGraph()` (lines 172–265): the base drawing, followed by the period
mark exactly when `time >= period` (line 237). -/
def drawGraph (W H : ℝ) (s : SimState) : List DrawCmd :=
  drawGraphBase W H s
    ++ (if s.period ≤ s.time then periodMarkCmds W H s else [])

/-! ## Basic lemmas about the physics step -/

theorem updatePhysics_time (W dt : ℝ) (s : SimState) :
    (updatePhysics W dt s).time = s.time + dt := rfl

theorem updatePhysics_position (W dt : ℝ) (s : SimState) :
    (updatePhysics W dt s).position
      = s.initialAmplitude * Real.cos (s.angularFrequency * (s.time + dt)) := rfl

theorem updatePhysics_velocity (W dt : ℝ) (s : SimState) :
    (updatePhysics W dt s).velocity
      = -s.initialAmplitude * s.angularFrequency
          * Real.sin (s.angularFrequency * (s.time + dt)) := rfl

theorem updatePhysics_initialAmplitude (W dt : ℝ) (s : SimState) :
    (updatePhysics W dt s).initialAmplitude = s.initialAmplitude := rfl

theorem updatePhysics_angularFrequency (W dt : ℝ) (s : SimState) :
    (updatePhysics W dt s).angularFrequency = s.angularFrequency := rfl

theorem runTicks_cons (W d : ℝ) (ds : List ℝ) (s : SimState) :
    runTicks W (d :: ds) s = runTicks W ds (updatePhysics W d s) := rfl

theorem runTicks_nil (W : ℝ) (s : SimState) : runTicks W [] s = s := rfl

/-- After at least one tick, position and velocity are the closed-form SHM
functions of the final absolute time and the (unchanged) parameters. -/
theorem runTicks_closed_form (W : ℝ) (ds : List ℝ) (s : SimState) (h : ds ≠ []) :
    (runTicks W ds s).position
        = s.initialAmplitude
            * Real.cos (s.angularFrequency * (runTicks W ds s).time)
      ∧ (runTicks W ds s).velocity
        = -s.initialAmplitude * s.angularFrequency
            * Real.sin (s.angularFrequency * (runTicks W ds s).time)
      ∧ (runTicks W ds s).initialAmplitude = s.initialAmplitude
      ∧ (runTicks W ds s).angularFrequency = s.angularFrequency := by
  induction ds generalizing s with
  | nil => exact absurd rfl h
  | cons d ds ih =>
    rw [runTicks_cons]
    cases ds with
    | nil =>
      refine ⟨?_, ?_, rfl, rfl⟩
      · rw [runTicks_nil, updatePhysics_position, updatePhysics_time]
      · rw [runTicks_nil, updatePhysics_velocity, updatePhysics_time]
    | cons d' ds' =>
      obtain ⟨hp, hv, hA, hω⟩ := ih (updatePhysics W d s) (by simp)
      rw [updatePhysics_initialAmplitude] at hp hv hA
      rw [updatePhysics_angularFrequency] at hp hv hω
      exact ⟨hp, hv, hA, hω⟩

/-! ## C2: derived parameters consistent after every parameter change -/

/-- C2: immediately after `updateParameters`, the derived fields satisfy
`angularFrequency = sqrt(springConstant / mass)` and
`period = 2π / angularFrequency`, computed from the newly stored
parameter values. -/
theorem updateParameters_derived_consistent (m k A : ℝ) (s : SimState) :
    (updateParameters m k A s).angularFrequency
        = Real.sqrt ((updateParameters m k A s).springConstant
            / (updateParameters m k A s).mass)
      ∧ (updateParameters m k A s).period
        = 2 * Real.pi / (updateParameters m k A s).angularFrequency := by
  constructor <;> rfl

/-! ## C3: reset puts the system in the rest state -/

/-- C3: after `resetSimulation` (from any state in which a pending tick
always has a recorded frame id, as the scheduler guarantees), `time = 0`,
`position = initialAmplitude`, `velocity = 0`, the history is empty, the
loop is idle, and no tick remains scheduled. -/
theorem resetSimulation_rest_state (s : SimState)
    (hinv : s.scheduledTick = true → s.animationFrameId.isSome = true) :
    (resetSimulation s).time = 0
      ∧ (resetSimulation s).position = s.initialAmplitude
      ∧ (resetSimulation s).velocity = 0
      ∧ (resetSimulation s).graphHistory = []
      ∧ (resetSimulation s).simulationActive = false
      ∧ (resetSimulation s).scheduledTick = false := by
  refine ⟨rfl, rfl, rfl, rfl, rfl, ?_⟩
  show (if s.animationFrameId.isSome then false else s.scheduledTick) = false
  by_cases h : s.animationFrameId.isSome
  · simp [h]
  · cases hst : s.scheduledTick
    · simp [hst]
    · exact absurd (hinv hst) h

theorem resetSimulation_rest_state_witness :
    ((startSimulation 5 (initState 1 10 1)).scheduledTick = true
        → (startSimulation 5 (initState 1 10 1)).animationFrameId.isSome = true)
      ∧ ((resetSimulation (startSimulation 5 (initState 1 10 1))).time = 0
        ∧ (resetSimulation (startSimulation 5 (initState 1 10 1))).position
            = (startSimulation 5 (initState 1 10 1)).initialAmplitude
        ∧ (resetSimulation (startSimulation 5 (initState 1 10 1))).velocity = 0
        ∧ (resetSimulation (startSimulation 5 (initState 1 10 1))).graphHistory = []
        ∧ (resetSimulation (startSimulation 5 (initState 1 10 1))).simulationActive = false
        ∧ (resetSimulation (startSimulation 5 (initState 1 10 1))).scheduledTick = false) :=
  ⟨fun _ => by simp [startSimulation, initState],
   resetSimulation_rest_state _ (fun _ => by simp [startSimulation, initState])⟩

/-! ## C6: start is a no-op when running, activates when idle -/

/-- C6: `startSimulation` while already active returns the state unchanged
(no field changes, no extra tick scheduled); while idle it activates the
loop, records the wall-clock reference, schedules exactly one tick, and
leaves `time`, `position`, `velocity` and the history untouched. -/
theorem startSimulation_behavior (now : ℝ) (s : SimState) :
    (s.simulationActive = true → startSimulation now s = s)
      ∧ (s.simulationActive = false →
          (startSimulation now s).simulationActive = true
            ∧ (startSimulation now s).lastTime = some now
            ∧ (startSimulation now s).scheduledTick = true
            ∧ (startSimulation now s).animationFrameId = some s.nextFrameId
            ∧ (startSimulation now s).time = s.time
            ∧ (startSimulation now s).position = s.position
            ∧ (startSimulation now s).velocity = s.velocity
            ∧ (startSimulation now s).graphHistory = s.graphHistory) := by
  constructor
  · intro h
    simp [startSimulation, h]
  · intro h
    simp [startSimulation, h]

theorem startSimulation_behavior_witness :
    (initState 1 10 1).simulationActive = false
      ∧ ((startSimulation 5 (initState 1 10 1)).simulationActive = true
        ∧ (startSimulation 5 (initState 1 10 1)).lastTime = some 5
        ∧ (startSimulation 5 (initState 1 10 1)).scheduledTick = true
        ∧ (startSimulation 5 (initState 1 10 1)).animationFrameId
            = some (initState 1 10 1).nextFrameId
        ∧ (startSimulation 5 (initState 1 10 1)).time = (initState 1 10 1).time
        ∧ (startSimulation 5 (initState 1 10 1)).position = (initState 1 10 1).position
        ∧ (startSimulation 5 (initState 1 10 1)).velocity = (initState 1 10 1).velocity
        ∧ (startSimulation 5 (initState 1 10 1)).graphHistory
            = (initState 1 10 1).graphHistory) :=
  ⟨rfl, (startSimulation_behavior 5 (initState 1 10 1)).2 rfl⟩

/-! ## C10: the motion stays inside the amplitude band -/

/-- C10: after any physics update from a state whose amplitude is
non-negative and whose angular frequency is the stored `sqrt(k/m)` with
`k/m > 0`, the position stays within `±initialAmplitude` and the speed
never exceeds `initialAmplitude * angularFrequency`. -/
theorem updatePhysics_amplitude_speed_bound (W dt : ℝ) (s : SimState)
    (hA : 0 ≤ s.initialAmplitude)
    (hω : s.angularFrequency = Real.sqrt (s.springConstant / s.mass))
    (hkm : 0 < s.springConstant / s.mass) :
    |(updatePhysics W dt s).position| ≤ s.initialAmplitude
      ∧ |(updatePhysics W dt s).velocity|
        ≤ s.initialAmplitude * s.angularFrequency := by
  have hω0 : 0 ≤ s.angularFrequency := hω ▸ Real.sqrt_nonneg _
  constructor
  · rw [updatePhysics_position, abs_mul, abs_of_nonneg hA]
    exact mul_le_of_le_one_right hA (Real.abs_cos_le_one _)
  · rw [updatePhysics_velocity, abs_mul, abs_mul, abs_neg,
      abs_of_nonneg hA, abs_of_nonneg hω0]
    exact mul_le_of_le_one_right (mul_nonneg hA hω0) (Real.abs_sin_le_one _)

theorem updatePhysics_amplitude_speed_bound_witness :
    (0 ≤ (initState 1 10 1).initialAmplitude
        ∧ (initState 1 10 1).angularFrequency
          = Real.sqrt ((initState 1 10 1).springConstant / (initState 1 10 1).mass)
        ∧ 0 < (initState 1 10 1).springConstant / (initState 1 10 1).mass)
      ∧ (|(updatePhysics 800 1 (initState 1 10 1)).position|
          ≤ (initState 1 10 1).initialAmplitude
        ∧ |(updatePhysics 800 1 (initState 1 10 1)).velocity|
          ≤ (initState 1 10 1).initialAmplitude
              * (initState 1 10 1).angularFrequency) :=
  ⟨⟨by norm_num [initState], rfl, by norm_num [initState]⟩,
   updatePhysics_amplitude_speed_bound 800 1 (initState 1 10 1)
     (by norm_num [initState]) rfl (by norm_num [initState])⟩

/-! ## C1: closed-form evaluation, no incremental-stepping drift -/

/-- C1: for valid parameters, after any non-empty sequence of physics
updates the state holds `position = A·cos(ω·t)` and
`velocity = -A·ω·sin(ω·t)` at the final absolute time `t`, so two runs
from the same state that reach the same `t` — however many ticks each
took — end with identical position and velocity. -/
theorem runTicks_closed_form_no_drift (W : ℝ) (s : SimState) (ds1 ds2 : List ℝ)
    (hm : 0 < s.mass) (hk : 0 < s.springConstant)
    (hA : 0 ≤ s.initialAmplitude)
    (h1 : ds1 ≠ []) (h2 : ds2 ≠ [])
    (hsame : (runTicks W ds1 s).time = (runTicks W ds2 s).time) :
    ((runTicks W ds1 s).position
        = s.initialAmplitude
            * Real.cos (s.angularFrequency * (runTicks W ds1 s).time)
      ∧ (runTicks W ds1 s).velocity
        = -s.initialAmplitude * s.angularFrequency
            * Real.sin (s.angularFrequency * (runTicks W ds1 s).time))
      ∧ (runTicks W ds1 s).position = (runTicks W ds2 s).position
      ∧ (runTicks W ds1 s).velocity = (runTicks W ds2 s).velocity := by
  obtain ⟨hp1, hv1, -, -⟩ := runTicks_closed_form W ds1 s h1
  obtain ⟨hp2, hv2, -, -⟩ := runTicks_closed_form W ds2 s h2
  refine ⟨⟨hp1, hv1⟩, ?_, ?_⟩
  · rw [hp1, hp2, hsame]
  · rw [hv1, hv2, hsame]

theorem runTicks_closed_form_no_drift_witness :
    (0 < (initState 1 10 1).mass
        ∧ 0 < (initState 1 10 1).springConstant
        ∧ 0 ≤ (initState 1 10 1).initialAmplitude
        ∧ ([(1 : ℝ), 1] ≠ ([] : List ℝ))
        ∧ ([(2 : ℝ)] ≠ ([] : List ℝ))
        ∧ (runTicks 800 [1, 1] (initState 1 10 1)).time
            = (runTicks 800 [2] (initState 1 10 1)).time)
      ∧ (runTicks 800 [1, 1] (initState 1 10 1)).position
          = (runTicks 800 [2] (initState 1 10 1)).position
      ∧ (runTicks 800 [1, 1] (initState 1 10 1)).velocity
          = (runTicks 800 [2] (initState 1 10 1)).velocity :=
  have htime : (runTicks 800 [1, 1] (initState 1 10 1)).time
      = (runTicks 800 [2] (initState 1 10 1)).time := by
    simp [runTicks, List.foldl, updatePhysics_time, initState]
    norm_num
  ⟨⟨by norm_num [initState], by norm_num [initState], by norm_num [initState],
    by simp, by simp, htime⟩,
   (runTicks_closed_form_no_drift 800 (initState 1 10 1) [1, 1] [2]
     (by norm_num [initState]) (by norm_num [initState])
     (by norm_num [initState]) (by simp) (by simp) htime).2⟩

/-! ## C9: the scene renderer is pure -/

/-- C9: `drawSimulation` leaves every simulation variable unchanged (its
state component is the input state), so calling it twice in a row yields
the identical drawing, and the emitted commands place the block so that
its horizontal center is `equilibriumX + position * simScale` (the
rectangle starts half a block width to the left, on the ground line). -/
theorem drawSimulation_pure (simW simH : ℝ) (s : SimState) :
    (drawSimulation simW simH s).1 = s
      ∧ drawSimulation simW simH (drawSimulation simW simH s).1
          = drawSimulation simW simH s
      ∧ DrawCmd.fillRect (equilibriumX + s.position * simScale - blockWidth / 2)
          (simH - 50 - blockHeight) blockWidth blockHeight
          ∈ (drawSimulation simW simH s).2 := by
  refine ⟨rfl, rfl, ?_⟩
  simp [drawSimulation]

/-! ## C4: history-buffer eviction -/

/-- The history times after a physics update: the new absolute time is
appended, and the front sample is dropped exactly when the post-append
length, at the assumed `0.03 s` per sample, exceeds the drawable width. -/
theorem updatePhysics_historyTimes (W dt : ℝ) (s : SimState) :
    historyTimes (updatePhysics W dt s)
      = if ((s.graphHistory.length : ℝ) + 1) * (graphScaleX * 0.03)
            > W - graphOriginX
        then (historyTimes s ++ [s.time + dt]).tail
        else historyTimes s ++ [s.time + dt] := by
  unfold updatePhysics historyTimes
  simp only [List.length_append, List.length_cons, List.length_nil,
    Nat.cast_add, Nat.cast_one, Nat.cast_zero, zero_add]
  split_ifs with h
  · rw [List.map_tail, List.map_append]
    rfl
  · rw [List.map_append]
    rfl

/-- C4 counterexample: after two appends with frame deltas `0` and `20 s`
on an 800-pixel-wide graph canvas, the buffer holds samples at times `0`
and `20`, a span of `20·graphScaleX = 1000` pixels, which exceeds the
drawable width `800 − graphOriginX = 750`: eviction is length-based (one
`shift()` when `length · graphScaleX · 0.03` exceeds the width), so the
covered time-span is not bounded by the plot width. -/
theorem historySpan_exceeds_width_cex :
    ¬ historySpanWithin 800
        (updatePhysics 800 20 (updatePhysics 800 0 (initState 1 10 1))) := by
  have h1 : historyTimes (updatePhysics 800 0 (initState 1 10 1)) = [0] := by
    rw [updatePhysics_historyTimes]
    norm_num [initState, historyTimes, graphScaleX, graphOriginX]
  have hl1 : (updatePhysics 800 0 (initState 1 10 1)).graphHistory.length = 1 := by
    have := congrArg List.length h1
    simpa [historyTimes] using this
  have h2 : historyTimes
      (updatePhysics 800 20 (updatePhysics 800 0 (initState 1 10 1)))
        = [0, 20] := by
    rw [updatePhysics_historyTimes, updatePhysics_time, hl1, h1]
    norm_num [initState, graphScaleX, graphOriginX]
  intro h
  have := h 0 (by rw [h2]; simp) 20 (by rw [h2]; simp)
  rw [graphScaleX, graphOriginX] at this
  norm_num at this

/-- C4 as amended: after every append, the buffer's *sample count*, scaled
by the assumed per-sample pixel width `graphScaleX * 0.03`, never exceeds
the drawable width (at most one sample is evicted from the front per
append), and for non-negative frame deltas the remaining samples stay in
time order, all at or before the current time. -/
theorem updatePhysics_length_bound_ordered (W dt : ℝ) (s : SimState)
    (hlen : (s.graphHistory.length : ℝ) * (graphScaleX * 0.03)
      ≤ W - graphOriginX)
    (hdt : 0 ≤ dt)
    (hsorted : (historyTimes s).Sorted (· ≤ ·))
    (hle : ∀ t ∈ historyTimes s, t ≤ s.time) :
    ((updatePhysics W dt s).graphHistory.length : ℝ) * (graphScaleX * 0.03)
        ≤ W - graphOriginX
      ∧ (historyTimes (updatePhysics W dt s)).Sorted (· ≤ ·)
      ∧ ∀ t ∈ historyTimes (updatePhysics W dt s),
          t ≤ (updatePhysics W dt s).time := by
  have hsorted' : (historyTimes s ++ [s.time + dt]).Sorted (· ≤ ·) := by
    refine List.pairwise_append.mpr ⟨hsorted, List.sorted_singleton _, ?_⟩
    intro a ha b hb
    rw [List.mem_singleton] at hb
    subst hb
    exact le_trans (hle a ha) (le_add_of_nonneg_right hdt)
  have hle' : ∀ t ∈ historyTimes s ++ [s.time + dt], t ≤ s.time + dt := by
    intro t ht
    rcases List.mem_append.1 ht with ht | ht
    · exact le_trans (hle t ht) (le_add_of_nonneg_right hdt)
    · rw [List.mem_singleton] at ht
      exact le_of_eq ht
  have hlength : (updatePhysics W dt s).graphHistory.length
      = (historyTimes (updatePhysics W dt s)).length :=
    (List.length_map _ _).symm
  rw [updatePhysics_time]
  rw [hlength, updatePhysics_historyTimes]
  split_ifs with h
  · refine ⟨?_, List.Pairwise.sublist (List.tail_sublist _) hsorted',
      fun t ht => hle' t (List.Sublist.mem ht (List.tail_sublist _))⟩
    have htl : ((historyTimes s ++ [s.time + dt]).tail.length : ℝ)
        = (s.graphHistory.length : ℝ) := by
      rw [List.length_tail]
      simp [historyTimes]
    rw [htl]
    exact hlen
  · refine ⟨?_, hsorted', hle'⟩
    push_neg at h
    calc ((historyTimes s ++ [s.time + dt]).length : ℝ) * (graphScaleX * 0.03)
        = ((s.graphHistory.length : ℝ) + 1) * (graphScaleX * 0.03) := by
          simp [historyTimes]
      _ ≤ W - graphOriginX := h

theorem updatePhysics_length_bound_ordered_witness :
    (((initState 1 10 1).graphHistory.length : ℝ) * (graphScaleX * 0.03)
          ≤ 800 - graphOriginX
        ∧ (0 : ℝ) ≤ 1
        ∧ (historyTimes (initState 1 10 1)).Sorted (· ≤ ·)
        ∧ ∀ t ∈ historyTimes (initState 1 10 1), t ≤ (initState 1 10 1).time)
      ∧ (((updatePhysics 800 1 (initState 1 10 1)).graphHistory.length : ℝ)
            * (graphScaleX * 0.03) ≤ 800 - graphOriginX
        ∧ (historyTimes (updatePhysics 800 1 (initState 1 10 1))).Sorted (· ≤ ·)
        ∧ ∀ t ∈ historyTimes (updatePhysics 800 1 (initState 1 10 1)),
            t ≤ (updatePhysics 800 1 (initState 1 10 1)).time) :=
  ⟨⟨by norm_num [initState, graphScaleX, graphOriginX], by norm_num,
    by simp [initState, historyTimes], by simp [initState, historyTimes]⟩,
   updatePhysics_length_bound_ordered 800 1 (initState 1 10 1)
     (by norm_num [initState, graphScaleX, graphOriginX]) (by norm_num)
     (by simp [initState, historyTimes]) (by simp [initState, historyTimes])⟩

/-! ## C5: parameter validation -/

/-- C5 counterexample: passing a non-positive mass (`0`) to
`updateParameters` is neither rejected nor clamped: the state ends up with
`mass = 0`, and the derived angular frequency is computed from the
division-by-zero quotient anyway — there is no invalid-parameters
condition anywhere in the operation. -/
theorem updateParameters_accepts_nonpositive_cex :
    (updateParameters 0 10 1 (initState 1 10 1)).mass = 0
      ∧ (updateParameters 0 10 1 (initState 1 10 1)).angularFrequency
          = Real.sqrt (10 / 0) :=
  ⟨rfl, rfl⟩

/-- C5 as amended: `updateParameters` performs no validation at all: for
every input (positive or not) it stores the three values verbatim and
unconditionally recomputes `angularFrequency = sqrt(k/m)` and
`period = 2π / sqrt(k/m)`; keeping the values in range is left entirely
to the external range-limited input widgets. -/
theorem updateParameters_no_validation (m k A : ℝ) (s : SimState) :
    (updateParameters m k A s).mass = m
      ∧ (updateParameters m k A s).springConstant = k
      ∧ (updateParameters m k A s).initialAmplitude = A
      ∧ (updateParameters m k A s).angularFrequency = Real.sqrt (k / m)
      ∧ (updateParameters m k A s).period = 2 * Real.pi / Real.sqrt (k / m) :=
  ⟨rfl, rfl, rfl, rfl, rfl⟩

/-! ## C7: per-tick time advancement -/

/-- C7 counterexample: start at wall-clock `1000 ms`, first frame at
`1016 ms`. The first tick's delta is `(1016 − 1000)/1000 = 0.016 s`, not
`0`: simulated time does advance on the first tick after `start()`,
because `startSimulation` records `performance.now()` as the reference and
the first frame fires later. -/
theorem animationLoop_first_tick_advances_cex :
    (animationLoop 800 1016 (startSimulation 1000 (initState 1 10 1))).time
      ≠ 0 := by
  norm_num [animationLoop, startSimulation, initState, updatePhysics_time]

/-- C7 as amended: each tick computes `deltaTime` as
`(currentTime − reference)/1000` where the reference is the last recorded
wall-clock value — the previous tick's timestamp, or for the first tick
after `start()` the timestamp recorded by `start()` — and, while running,
advances `time` by exactly that delta. In particular the first tick after
`start()` advances simulated time by the (generally non-zero) gap between
the first frame timestamp and the `start()` timestamp. -/
theorem animationLoop_delta_from_reference (W c n l : ℝ) (s s' : SimState)
    (hn : n ≠ 0) (hidle : s.simulationActive = false)
    (hl : s'.lastTime = some l) (h0 : l ≠ 0)
    (hact : s'.simulationActive = true) :
    ((startSimulation n s).lastTime = some n
        ∧ (animationLoop W c (startSimulation n s)).time
            = s.time + (c - n) / 1000)
      ∧ (animationLoop W c s').time = s'.time + (c - l) / 1000 := by
  refine ⟨⟨?_, ?_⟩, ?_⟩
  · simp [startSimulation, hidle]
  · simp [animationLoop, startSimulation, hidle, hn, updatePhysics_time]
  · simp [animationLoop, hl, h0, hact, updatePhysics_time]

theorem animationLoop_delta_from_reference_witness :
    ((1000 : ℝ) ≠ 0
        ∧ (initState 1 10 1).simulationActive = false
        ∧ (startSimulation 1000 (initState 1 10 1)).lastTime = some 1000
        ∧ (startSimulation 1000 (initState 1 10 1)).simulationActive = true)
      ∧ (((startSimulation 1000 (initState 1 10 1)).lastTime = some 1000
        ∧ (animationLoop 800 1016 (startSimulation 1000 (initState 1 10 1))).time
            = (initState 1 10 1).time + (1016 - 1000) / 1000)
      ∧ (animationLoop 800 1016 (startSimulation 1000 (initState 1 10 1))).time
          = (startSimulation 1000 (initState 1 10 1)).time
              + (1016 - 1000) / 1000) :=
  ⟨⟨by norm_num, rfl, by simp [startSimulation, initState], by simp [startSimulation, initState]⟩,
   animationLoop_delta_from_reference 800 1016 1000 1000
     (initState 1 10 1) (startSimulation 1000 (initState 1 10 1))
     (by norm_num) rfl (by simp [startSimulation, initState]) (by norm_num)
     (by simp [startSimulation, initState])⟩

/-! ## C8: the period mark on the graph -/

/-- The purple stroke style is used by nothing in the base graph drawing. -/
theorem setStrokeStyle_purple_not_mem_base (W H : ℝ) (s : SimState) :
    DrawCmd.setStrokeStyle "purple" ∉ drawGraphBase W H s := by
  unfold drawGraphBase
  cases h : s.graphHistory with
  | nil => simp
  | cons p ps => simp

/-- C8: `drawGraph` emits the period mark (whose only purple stroke style
it alone uses) exactly when `time ≥ period`, and when it does, the mark's
left anchor is the most recently completed period boundary
`time − (time mod period)` transformed to screen coordinates, just above
the upper amplitude line. -/
theorem drawGraph_period_mark_iff (W H : ℝ) (s : SimState) :
    (DrawCmd.setStrokeStyle "purple" ∈ drawGraph W H s ↔ s.period ≤ s.time)
      ∧ (s.period ≤ s.time →
          DrawCmd.moveTo
            (graphOriginX + (s.time - jsMod s.time s.period) * graphScaleX
              - currentGraphXOffset W s)
            (H / 2 - s.initialAmplitude * graphScaleY - 10)
            ∈ drawGraph W H s) := by
  constructor
  · constructor
    · intro hmem
      rcases List.mem_append.1 hmem with h | h
      · exact absurd h (setStrokeStyle_purple_not_mem_base W H s)
      · by_contra hlt
        rw [if_neg hlt] at h
        exact List.not_mem_nil _ h
    · intro hle
      refine List.mem_append.2 (Or.inr ?_)
      rw [if_pos hle]
      simp [periodMarkCmds]
  · intro hle
    refine List.mem_append.2 (Or.inr ?_)
    rw [if_pos hle]
    simp [periodMarkCmds]

theorem drawGraph_period_mark_iff_witness :
    ({ initState 1 10 1 with time := 4, period := 2 } : SimState).period
        ≤ ({ initState 1 10 1 with time := 4, period := 2 } : SimState).time
      ∧ DrawCmd.moveTo
          (graphOriginX
            + (({ initState 1 10 1 with time := 4, period := 2 } : SimState).time
                - jsMod ({ initState 1 10 1 with time := 4, period := 2 } : SimState).time
                    ({ initState 1 10 1 with time := 4, period := 2 } : SimState).period)
              * graphScaleX
            - currentGraphXOffset 800
                ({ initState 1 10 1 with time := 4, period := 2 } : SimState))
          (400 / 2
            - ({ initState 1 10 1 with time := 4, period := 2 } : SimState).initialAmplitude
              * graphScaleY - 10)
          ∈ drawGraph 800 400 ({ initState 1 10 1 with time := 4, period := 2 } : SimState) :=
  ⟨by norm_num [initState],
   (drawGraph_period_mark_iff 800 400
     ({ initState 1 10 1 with time := 4, period := 2 } : SimState)).2
     (by norm_num [initState])⟩

end


